import Mathlib

/-
  Verification development for the zllog structured-logging facade.

  Shallow embedding of:
  - the Field model (field.go): typed key/value pairs with a closed value-kind
    taxonomy (string, bool, signed/unsigned integers of every width,
    float32/64, time, duration, error, raw JSON bytes, nested field
    collections/sequences, opaque fallback);
  - the default Zerolog backend adapter (zerolog_logger.go): the addFields
    type-switch dispatch and the per-method event construction;
  - the facade/registry (log.go): the global Logger slot (SetLogger/GetLogger),
    the trace-id resolution (GetOrCreateTraceID), and the sync.Once guarded
    initializer (InitLoggerWithConfig) with parseLevel.

  Machine values: Go machine integers are modeled as Int/Nat (no overflow is
  exercised by the code under study), floats by their bit patterns (the code
  never computes with them, only forwards them to the renderer), and errors by
  their message strings.  Runtime inputs that are not part of the logic under
  study (the stack-walk caller string, the random bytes feeding uuid.New, the
  os.Hostname result) are passed as explicit parameters.
-/

namespace ZLLog

/-! ## Field model (field.go) -/

mutual

/-- Value kinds a `Field` can hold, mirroring the concrete Go types that the
`addFields` type switch in zerolog_logger.go distinguishes.  `vOther` stands
for any concrete type not matched by a dedicated case arm. -/
inductive Value where
  | vString (s : String)
  | vInt (n : Int)
  | vInt8 (n : Int)
  | vInt16 (n : Int)
  | vInt32 (n : Int)
  | vInt64 (n : Int)
  | vUint (n : Nat)
  | vUint8 (n : Nat)
  | vUint16 (n : Nat)
  | vUint32 (n : Nat)
  | vUint64 (n : Nat)
  | vFloat32 (bits : Nat)
  | vFloat64 (bits : Nat)
  | vBool (b : Bool)
  | vTime (t : Int)
  | vDur (d : Int)
  | vErr (msg : String)
  | vBytes (bs : List Nat)
  | vFields (fs : List Field)
  | vOther (tag : String)

/-- A log field: `type Field struct { Key string; Value interface{} }`. -/
inductive Field where
  | mk (Key : String) (Value : Value)

end

/-- Accessor for `Field.Key`. -/
def Field.Key : Field → String
  | .mk k _ => k

/-- Accessor for `Field.Value`. -/
def Field.Value : Field → Value
  | .mk _ v => v

/-- `NamedErr(key, err)` from field.go: an error value under a caller-chosen
key. -/
def NamedErr (key : String) (msg : String) : Field :=
  .mk key (.vErr msg)

/-- `Err(err)` from field.go: an error value under the key "error". -/
def ErrField (msg : String) : Field :=
  .mk "error" (.vErr msg)

/-- `Dict(key, f...)` from field.go: a nested field collection. -/
def Dict (key : String) (f : List Field) : Field :=
  .mk key (.vFields f)

/-- `Array(key, f...)` from field.go: a field sequence (same representation as
`Dict`, exactly as in the source). -/
def ArrayField (key : String) (f : List Field) : Field :=
  .mk key (.vFields f)

/-! ## Rendered event entries (the zerolog Event surface used by the adapter)

Each zerolog `Event` method appends one key/value entry to the event's JSON
buffer; we model the buffer as a list of entries.  `event.Err(v)` writes under
zerolog's fixed error field name "error" (the key argument is absent in its
signature).  `event.Array(k, zerolog.Arr())` writes an empty JSON array under
`k`. -/

/-- The rendered representation of one entry value. Distinct zerolog
serialization rules get distinct constructors; all signed integer widths
render as a decimal integer, all unsigned widths as a decimal natural. -/
inductive RVal where
  | rStr (s : String)
  | rInt (n : Int)
  | rUint (n : Nat)
  | rFloat32 (bits : Nat)
  | rFloat64 (bits : Nat)
  | rBool (b : Bool)
  | rTime (t : Int)
  | rDur (d : Int)
  | rErr (msg : String)
  | rRawJSON (bs : List Nat)
  | rEmptyArr
  | rInterface (tag : String)
deriving DecidableEq

/-- One key/value entry of a rendered event. -/
structure Entry where
  key : String
  val : RVal
deriving DecidableEq

/-- The body of the `addFields` loop in zerolog_logger.go: the type switch on
`field.Value` that appends the field's rendering to the event.  Note the
`error` arm calls `event.Err(v)` (fixed key "error"), and the `[]Field` arm
appends an empty array only when the slice is non-empty. -/
def addField (event : List Entry) (field : Field) : List Entry :=
  match field.Value with
  | .vString v => event ++ [⟨field.Key, .rStr v⟩]
  | .vInt v => event ++ [⟨field.Key, .rInt v⟩]
  | .vInt8 v => event ++ [⟨field.Key, .rInt v⟩]
  | .vInt16 v => event ++ [⟨field.Key, .rInt v⟩]
  | .vInt32 v => event ++ [⟨field.Key, .rInt v⟩]
  | .vInt64 v => event ++ [⟨field.Key, .rInt v⟩]
  | .vUint v => event ++ [⟨field.Key, .rUint v⟩]
  | .vUint8 v => event ++ [⟨field.Key, .rUint v⟩]
  | .vUint16 v => event ++ [⟨field.Key, .rUint v⟩]
  | .vUint32 v => event ++ [⟨field.Key, .rUint v⟩]
  | .vUint64 v => event ++ [⟨field.Key, .rUint v⟩]
  | .vFloat32 v => event ++ [⟨field.Key, .rFloat32 v⟩]
  | .vFloat64 v => event ++ [⟨field.Key, .rFloat64 v⟩]
  | .vBool v => event ++ [⟨field.Key, .rBool v⟩]
  | .vTime v => event ++ [⟨field.Key, .rTime v⟩]
  | .vDur v => event ++ [⟨field.Key, .rDur v⟩]
  | .vErr v => event ++ [⟨"error", .rErr v⟩]
  | .vBytes v => event ++ [⟨field.Key, .rRawJSON v⟩]
  | .vFields v => if v.length > 0 then event ++ [⟨field.Key, .rEmptyArr⟩] else event
  | .vOther t => event ++ [⟨field.Key, .rInterface t⟩]

/-- `addFields` from zerolog_logger.go: fold the type-switch dispatch over the
supplied fields in order. -/
def addFields (event : List Entry) : List Field → List Entry
  | [] => event
  | f :: fs => addFields (addField event f) fs

/-- The entries contributed by a single field (the dispatch applied to an
empty event). -/
def renderField (f : Field) : List Entry :=
  addField [] f

/-- The entries contributed by a field list, in order. -/
def renderFields : List Field → List Entry
  | [] => []
  | f :: fs => renderField f ++ renderFields fs

theorem addField_eq_append (event : List Entry) (f : Field) :
    addField event f = event ++ renderField f := by
  cases f with
  | mk k v =>
    cases v <;> simp [addField, renderField, Field.Key, Field.Value]
    case vFields fs => cases fs <;> simp

theorem addFields_eq_append (event : List Entry) (fs : List Field) :
    addFields event fs = event ++ renderFields fs := by
  induction fs generalizing event with
  | nil => simp [addFields, renderFields]
  | cons f fs ih =>
    simp [addFields, renderFields, ih, addField_eq_append]

/-- Does the rendered event contain an entry under key `k`? -/
def hasKey (k : String) (es : List Entry) : Bool :=
  es.any (fun e => e.key == k)

theorem hasKey_append (k : String) (a b : List Entry) :
    hasKey k (a ++ b) = (hasKey k a || hasKey k b) := by
  simp [hasKey]

/-! ## Trace-id resolution (log.go: GetOrCreateTraceID)

`GetOrCreateTraceID` consults the registered provider and otherwise generates
`hex.EncodeToString(uuid.New()[:])`.  A context is modeled as an opaque token,
a provider as a function from contexts to strings (empty string = no id), and
the 16 random bytes that `uuid.NewRandom` draws are an explicit parameter. -/

/-- The digit table of Go's encoding/hex: `hextable = "0123456789abcdef"`. -/
def hextable : String :=
  "0123456789abcdef"

/-- The lowercase hex digit of a value below 16 (indexing `hextable`). -/
def hexChar (n : Nat) : Char :=
  hextable.data.getD n '0'

/-- `hex.EncodeToString` writes the high then the low nibble of each byte. -/
def byteToHex (b : Nat) : List Char :=
  [hexChar (b / 16), hexChar (b % 16)]

/-- Character list produced by `hex.EncodeToString` on a byte slice. -/
def hexEncodeList : List Nat → List Char
  | [] => []
  | b :: bs => byteToHex b ++ hexEncodeList bs

/-- `hex.EncodeToString` on a byte slice. -/
def hexEncodeToString (bs : List Nat) : String :=
  ⟨hexEncodeList bs⟩

/-- `uuid.NewRandom` fills 16 random bytes and then forces the RFC 4122
version-4/variant bits: byte 6 becomes `(b AND 0x0f) OR 0x40` and byte 8
becomes `(b AND 0x3f) OR 0x80` (written with `%` and `+` over disjoint bit
ranges). -/
def setUuidBits : Nat → List Nat → List Nat
  | _, [] => []
  | i, b :: rest =>
    (if i = 6 then b % 16 + 64 else if i = 8 then b % 64 + 128 else b)
      :: setUuidBits (i + 1) rest

/-- `uuid.New()` as a function of the random bytes it draws. -/
def uuidNew (entropy : List Nat) : List Nat :=
  setUuidBits 0 entropy

/-- `GetOrCreateTraceID` from log.go: if a provider is registered and yields a
non-empty id for the context, return it verbatim; otherwise hex-encode a fresh
version-4 UUID. -/
def GetOrCreateTraceID (provider : Option (Nat → String)) (ctx : Nat)
    (entropy : List Nat) : String :=
  match provider with
  | some p =>
    let traceID := p ctx
    if traceID ≠ "" then traceID
    else hexEncodeToString (uuidNew entropy)
  | none => hexEncodeToString (uuidNew entropy)

/-- A character of the lowercase hex alphabet `[0-9a-f]`. -/
def isLowerHex (c : Char) : Bool :=
  ('0' ≤ c && c ≤ '9') || ('a' ≤ c && c ≤ 'f')

/-! ## Configuration and the guarded initializer (log.go) -/

/-- zerolog severity levels used by the facade. -/
inductive Level where
  | debug
  | info
  | warn
  | error
  | fatal
deriving DecidableEq

/-- `LogConfig` from log.go. -/
structure LogConfig where
  ServiceName : String
  Env : String
  LogLevel : String
  LogDir : String
  MaxSize : Int
  MaxBackups : Int
  MaxAge : Int
  Compress : Bool
  EnableDailyRoll : Bool
  EnableConsole : Bool
  ConsoleJSONFormat : Bool
deriving DecidableEq

/-- `DefaultConfig` from log.go. -/
def DefaultConfig (serviceName : String) : LogConfig where
  ServiceName := serviceName
  Env := "dev"
  LogLevel := "INFO"
  LogDir := "./logs"
  MaxSize := 100
  MaxBackups := 180
  MaxAge := 180
  Compress := true
  EnableDailyRoll := true
  EnableConsole := true
  ConsoleJSONFormat := false

/-- `strings.ToUpper` as used on the severity names: map each character to
its upper-case form (the level names are ASCII). -/
def toUpperGo (s : String) : String :=
  ⟨s.data.map Char.toUpper⟩

/-- `parseLevel` from log.go: switch on `strings.ToUpper(levelStr)`; the
default arm returns `(InfoLevel, non-nil error)`. -/
def parseLevel (levelStr : String) : Level × Option String :=
  let u := toUpperGo levelStr
  if u = "DEBUG" then (.debug, none)
  else if u = "INFO" then (.info, none)
  else if u = "WARN" ∨ u = "WARNING" then (.warn, none)
  else if u = "ERROR" then (.error, none)
  else if u = "FATAL" then (.fatal, none)
  else (.info, some ("unknown log level: " ++ levelStr))

/-- The output writers assembled by the initializer: `createLogFileWriter`
always, plus `createConsoleWriter` when `EnableConsole` (stdout JSON when
`ConsoleJSONFormat`, the colored ConsoleWriter otherwise). -/
inductive WriterCfg where
  | file (dir : String) (maxSize maxBackups maxAge : Int) (compress : Bool)
  | consoleJSON
  | consoleText
deriving DecidableEq

/-- The writer list built inside `InitLoggerWithConfig`. -/
def mkWriters (c : LogConfig) : List WriterCfg :=
  [.file c.LogDir c.MaxSize c.MaxBackups c.MaxAge c.Compress]
    ++ (if c.EnableConsole then
          [if c.ConsoleJSONFormat then .consoleJSON else .consoleText]
        else [])

/-- The configured global zerolog logger: level, base fields
(service/env/host) and writers, as assembled by `InitLoggerWithConfig`. -/
structure ConfiguredLogger where
  level : Level
  service : String
  env : String
  host : String
  writers : List WriterCfg
deriving DecidableEq

/-- A value of the `Logger` interface held in the global slot: either the
default `ZerologLogger` built by the initializer or a caller-registered
implementation (identified by reference). -/
inductive LoggerImpl where
  | zerologImpl (cfg : ConfiguredLogger)
  | custom (id : Nat)
deriving DecidableEq

/-- The package-level mutable state of log.go: the `sync.Once` guard,
the saved service/env/host strings, the zerolog global level, the configured
global logger, the `Logger`-interface slot and the trace-provider slot
(provider identified by reference). -/
structure GlobalState where
  onceDone : Bool
  serviceName : String
  envName : String
  hostName : String
  globalLevel : Option Level
  globalLogger : Option ConfiguredLogger
  loggerImpl : Option LoggerImpl
  traceProvider : Option Nat
deriving DecidableEq

/-- The Go zero-value state before any call: the `sync.Once` unfired, strings
empty, both interface slots nil, no configured logger. -/
def initialState : GlobalState where
  onceDone := false
  serviceName := ""
  envName := ""
  hostName := ""
  globalLevel := none
  globalLogger := none
  loggerImpl := none
  traceProvider := none

/-- `InitLoggerWithConfig` from log.go.  `host` is the `os.Hostname()` result
(`none` = the call errored, in which case "unknown" is stored).  The
`onceInit.Do` body runs only when the guard has not fired; it first saves
service/env/host, then parses the level — on a parse error it stores the
error and returns without configuring anything else; otherwise it sets the
global level, builds the writers and the global logger with its base fields,
and installs the default `ZerologLogger`.  The function returns the captured
`initErr`, which is nil whenever the body did not run. -/
def InitLoggerWithConfig (s : GlobalState) (config : LogConfig)
    (host : Option String) : GlobalState × Option String :=
  if s.onceDone then (s, none)
  else
    let s1 : GlobalState :=
      { s with
        onceDone := true
        serviceName := config.ServiceName
        envName := config.Env
        hostName := host.getD "unknown" }
    match parseLevel config.LogLevel with
    | (_, some _) => (s1, some ("invalid log level: " ++ config.LogLevel))
    | (level, none) =>
      let gl : ConfiguredLogger :=
        { level := level
          service := config.ServiceName
          env := config.Env
          host := s1.hostName
          writers := mkWriters config }
      ({ s1 with
          globalLevel := some level
          globalLogger := some gl
          loggerImpl := some (.zerologImpl gl) }, none)

/-- `SetLogger` from log.go: plain assignment to the global slot. -/
def SetLogger (s : GlobalState) (logger : LoggerImpl) : GlobalState :=
  { s with loggerImpl := some logger }

/-- `GetLogger` from log.go: read the global slot. -/
def GetLogger (s : GlobalState) : Option LoggerImpl :=
  s.loggerImpl

/-- `RegisterTraceIDProvider` from log.go: plain assignment to the provider
slot. -/
def RegisterTraceIDProvider (s : GlobalState) (provider : Nat) : GlobalState :=
  { s with traceProvider := some provider }

/-! ## Registry operation sequences (for the registration claims)

The package-level logging entry points (`Debug`/`Info`/.../`ErrorWithRequest`)
read the slot via `getLogger()` and never assign any global; `SetLogger` and
`RegisterTraceIDProvider` each assign exactly one slot. -/

/-- Which package-level logging entry point a call went through. -/
inductive LogCallKind where
  | debug
  | info
  | warn
  | error
  | errorWithCode
  | infoWithRequest
  | errorWithRequest
deriving DecidableEq

/-- An operation on the facade's registry state. -/
inductive RegOp where
  | logCall (k : LogCallKind)
  | setLoggerOp (L : LoggerImpl)
  | registerProviderOp (p : Nat)
deriving DecidableEq

/-- Effect of one registry operation on the package state: logging calls only
read, `SetLogger`/`RegisterTraceIDProvider` replace their slot. -/
def applyOp (s : GlobalState) : RegOp → GlobalState
  | .logCall _ => s
  | .setLoggerOp L => SetLogger s L
  | .registerProviderOp p => RegisterTraceIDProvider s p

/-- Apply a sequence of registry operations in order. -/
def applyOps (s : GlobalState) : List RegOp → GlobalState
  | [] => s
  | op :: ops => applyOps (applyOp s op) ops

/-- Is the operation one of the logging entry points (slot readers)? -/
def isLogCall : RegOp → Bool
  | .logCall _ => true
  | _ => false

/-! ## The default backend adapter (zerolog_logger.go)

Each method opens an event at its severity, appends its entries in source
order, submits the event (`event.Msg(message)` appends the message and hands
the record to the writer) and — for `Fatal` only — calls `os.Exit(1)`.
The observable behavior of one call is a list of actions.  The result of the
`getCaller()` stack walk is a parameter (`caller`); trace-id resolution goes
through `GetOrCreateTraceID` exactly as in the source. -/

/-- An externally observable action of one adapter call. -/
inductive Action where
  | emit (lvl : Level) (event : List Entry)
  | exit (code : Nat)
deriving DecidableEq

/-- Does a trace contain a process-termination action? -/
def containsExit : List Action → Bool
  | [] => false
  | .exit _ :: _ => true
  | _ :: rest => containsExit rest

/-- All entries emitted by a trace, in order. -/
def emittedEntries : List Action → List Entry
  | [] => []
  | .emit _ ev :: rest => ev ++ emittedEntries rest
  | .exit _ :: rest => emittedEntries rest

/-- `ZerologLogger`: the default adapter; `enableCaller` controls the caller
tag. -/
structure ZerologLogger where
  enableCaller : Bool
deriving DecidableEq

/-- `NewZerologLogger`: caller tagging enabled by default. -/
def NewZerologLogger : ZerologLogger :=
  ⟨true⟩

/-- `ZerologLogger.Debug`: caller, trace_id, module, fields, message. -/
def ZerologLogger.Debug (l : ZerologLogger) (caller : String)
    (tp : Option (Nat → String)) (ctx : Nat) (entropy : List Nat)
    (module message : String) (fields : List Field) : List Action :=
  let event : List Entry := []
  let event := if l.enableCaller then event ++ [⟨"caller", .rStr caller⟩] else event
  let event := event ++ [⟨"trace_id", .rStr (GetOrCreateTraceID tp ctx entropy)⟩]
  let event := event ++ [⟨"module", .rStr module⟩]
  let event := addFields event fields
  [.emit .debug (event ++ [⟨"message", .rStr message⟩])]

/-- `ZerologLogger.Info`: caller, trace_id, module, fields, message. -/
def ZerologLogger.Info (l : ZerologLogger) (caller : String)
    (tp : Option (Nat → String)) (ctx : Nat) (entropy : List Nat)
    (module message : String) (fields : List Field) : List Action :=
  let event : List Entry := []
  let event := if l.enableCaller then event ++ [⟨"caller", .rStr caller⟩] else event
  let event := event ++ [⟨"trace_id", .rStr (GetOrCreateTraceID tp ctx entropy)⟩]
  let event := event ++ [⟨"module", .rStr module⟩]
  let event := addFields event fields
  [.emit .info (event ++ [⟨"message", .rStr message⟩])]

/-- `ZerologLogger.Warn`: caller, trace_id, module, fields, message. -/
def ZerologLogger.Warn (l : ZerologLogger) (caller : String)
    (tp : Option (Nat → String)) (ctx : Nat) (entropy : List Nat)
    (module message : String) (fields : List Field) : List Action :=
  let event : List Entry := []
  let event := if l.enableCaller then event ++ [⟨"caller", .rStr caller⟩] else event
  let event := event ++ [⟨"trace_id", .rStr (GetOrCreateTraceID tp ctx entropy)⟩]
  let event := event ++ [⟨"module", .rStr module⟩]
  let event := addFields event fields
  [.emit .warn (event ++ [⟨"message", .rStr message⟩])]

/-- `ZerologLogger.Error`: optional err, caller, trace_id, module, fields,
message.  `err` is the Go error argument (`none` = nil). -/
def ZerologLogger.Error (l : ZerologLogger) (caller : String)
    (tp : Option (Nat → String)) (ctx : Nat) (entropy : List Nat)
    (module message : String) (err : Option String) (fields : List Field) :
    List Action :=
  let event : List Entry := []
  let event := match err with
    | some e => event ++ [⟨"error", .rErr e⟩]
    | none => event
  let event := if l.enableCaller then event ++ [⟨"caller", .rStr caller⟩] else event
  let event := event ++ [⟨"trace_id", .rStr (GetOrCreateTraceID tp ctx entropy)⟩]
  let event := event ++ [⟨"module", .rStr module⟩]
  let event := addFields event fields
  [.emit .error (event ++ [⟨"message", .rStr message⟩])]

/-- `ZerologLogger.ErrorWithCode`: optional err, caller, error_code, trace_id,
module, fields, message. -/
def ZerologLogger.ErrorWithCode (l : ZerologLogger) (caller : String)
    (tp : Option (Nat → String)) (ctx : Nat) (entropy : List Nat)
    (module message errorCode : String) (err : Option String)
    (fields : List Field) : List Action :=
  let event : List Entry := []
  let event := match err with
    | some e => event ++ [⟨"error", .rErr e⟩]
    | none => event
  let event := if l.enableCaller then event ++ [⟨"caller", .rStr caller⟩] else event
  let event := event ++ [⟨"error_code", .rStr errorCode⟩]
  let event := event ++ [⟨"trace_id", .rStr (GetOrCreateTraceID tp ctx entropy)⟩]
  let event := event ++ [⟨"module", .rStr module⟩]
  let event := addFields event fields
  [.emit .error (event ++ [⟨"message", .rStr message⟩])]

/-- `ZerologLogger.Fatal`: emits like `Error` at fatal severity, then calls
`os.Exit(1)`. -/
def ZerologLogger.Fatal (l : ZerologLogger) (caller : String)
    (tp : Option (Nat → String)) (ctx : Nat) (entropy : List Nat)
    (module message : String) (err : Option String) (fields : List Field) :
    List Action :=
  let event : List Entry := []
  let event := match err with
    | some e => event ++ [⟨"error", .rErr e⟩]
    | none => event
  let event := if l.enableCaller then event ++ [⟨"caller", .rStr caller⟩] else event
  let event := event ++ [⟨"trace_id", .rStr (GetOrCreateTraceID tp ctx entropy)⟩]
  let event := event ++ [⟨"module", .rStr module⟩]
  let event := addFields event fields
  [.emit .fatal (event ++ [⟨"message", .rStr message⟩]), .exit 1]

/-- `ZerologLogger.InfoWithRequest`: optional request_id (when non-empty),
optional cost_ms (when positive), caller, trace_id, module, fields,
message. -/
def ZerologLogger.InfoWithRequest (l : ZerologLogger) (caller : String)
    (tp : Option (Nat → String)) (ctx : Nat) (entropy : List Nat)
    (module message requestID : String) (costMs : Int)
    (fields : List Field) : List Action :=
  let event : List Entry := []
  let event := if requestID ≠ "" then event ++ [⟨"request_id", .rStr requestID⟩] else event
  let event := if costMs > 0 then event ++ [⟨"cost_ms", .rInt costMs⟩] else event
  let event := if l.enableCaller then event ++ [⟨"caller", .rStr caller⟩] else event
  let event := event ++ [⟨"trace_id", .rStr (GetOrCreateTraceID tp ctx entropy)⟩]
  let event := event ++ [⟨"module", .rStr module⟩]
  let event := addFields event fields
  [.emit .info (event ++ [⟨"message", .rStr message⟩])]

/-- `ZerologLogger.ErrorWithRequest`: optional err, optional request_id (when
non-empty), optional cost_ms (when positive), caller, trace_id, module,
fields, message. -/
def ZerologLogger.ErrorWithRequest (l : ZerologLogger) (caller : String)
    (tp : Option (Nat → String)) (ctx : Nat) (entropy : List Nat)
    (module message requestID : String) (err : Option String) (costMs : Int)
    (fields : List Field) : List Action :=
  let event : List Entry := []
  let event := match err with
    | some e => event ++ [⟨"error", .rErr e⟩]
    | none => event
  let event := if requestID ≠ "" then event ++ [⟨"request_id", .rStr requestID⟩] else event
  let event := if costMs > 0 then event ++ [⟨"cost_ms", .rInt costMs⟩] else event
  let event := if l.enableCaller then event ++ [⟨"caller", .rStr caller⟩] else event
  let event := event ++ [⟨"trace_id", .rStr (GetOrCreateTraceID tp ctx entropy)⟩]
  let event := event ++ [⟨"module", .rStr module⟩]
  let event := addFields event fields
  [.emit .error (event ++ [⟨"message", .rStr message⟩])]

/-! ## Helper lemmas about hex encoding and uuid generation -/

theorem hexChar_isLowerHex : ∀ n < 16, isLowerHex (hexChar n) = true := by
  decide

theorem hexEncodeList_length (bs : List Nat) :
    (hexEncodeList bs).length = 2 * bs.length := by
  induction bs with
  | nil => simp [hexEncodeList]
  | cons b rest ih =>
    simp [hexEncodeList, byteToHex, ih]
    ring

theorem hexEncodeList_isLowerHex (bs : List Nat) (hb : ∀ b ∈ bs, b < 256) :
    ∀ c ∈ hexEncodeList bs, isLowerHex c = true := by
  induction bs with
  | nil => simp [hexEncodeList]
  | cons b rest ih =>
    intro c hc
    have hblt : b < 256 := hb b (by simp)
    simp only [hexEncodeList, byteToHex, List.cons_append, List.nil_append,
      List.mem_cons] at hc
    rcases hc with h | h | h
    · subst h
      exact hexChar_isLowerHex (b / 16) (Nat.div_lt_of_lt_mul hblt)
    · subst h
      exact hexChar_isLowerHex (b % 16) (Nat.mod_lt b (by omega))
    · exact ih (fun x hx => hb x (by simp [hx])) c h

theorem setUuidBits_length (i : Nat) (bs : List Nat) :
    (setUuidBits i bs).length = bs.length := by
  induction bs generalizing i with
  | nil => simp [setUuidBits]
  | cons b rest ih => simp [setUuidBits, ih]

theorem setUuidBits_bound (i : Nat) (bs : List Nat)
    (hb : ∀ b ∈ bs, b < 256) : ∀ b ∈ setUuidBits i bs, b < 256 := by
  induction bs generalizing i with
  | nil => simp [setUuidBits]
  | cons b rest ih =>
    intro x hx
    have hblt : b < 256 := hb b (by simp)
    simp only [setUuidBits, List.mem_cons] at hx
    rcases hx with h | h
    · subst h
      split_ifs with h6 h8
      · have := Nat.mod_lt b (show 0 < 16 by omega)
        omega
      · have := Nat.mod_lt b (show 0 < 64 by omega)
        omega
      · exact hblt
    · exact ih (i + 1) (fun y hy => hb y (by simp [hy])) x h

theorem uuidNew_hex_length (entropy : List Nat) (hlen : entropy.length = 16) :
    (hexEncodeToString (uuidNew entropy)).length = 32 := by
  show (hexEncodeList (uuidNew entropy)).length = 32
  rw [hexEncodeList_length, uuidNew, setUuidBits_length, hlen]

theorem uuidNew_hex_chars (entropy : List Nat)
    (hb : ∀ b ∈ entropy, b < 256) :
    ∀ c ∈ (hexEncodeToString (uuidNew entropy)).data, isLowerHex c = true := by
  intro c hc
  exact hexEncodeList_isLowerHex _ (setUuidBits_bound 0 entropy hb) c hc

/-- Logging entry points never write any registry slot, so a sequence of them
leaves the whole package state unchanged. -/
theorem applyOps_logCalls_id (ops : List RegOp) (s : GlobalState)
    (h : ops.all isLogCall = true) : applyOps s ops = s := by
  induction ops generalizing s with
  | nil => rfl
  | cons op rest ih =>
    simp only [List.all_cons, Bool.and_eq_true] at h
    cases op with
    | logCall k => exact ih s h.2
    | setLoggerOp L => simp [isLogCall] at h
    | registerProviderOp p => simp [isLogCall] at h

/-- The level names accepted by `parseLevel` after `strings.ToUpper`
(the code accepts WARNING as a synonym of WARN). -/
def recognizedUpper (u : String) : Bool :=
  u == "DEBUG" || u == "INFO" || u == "WARN" || u == "WARNING"
    || u == "ERROR" || u == "FATAL"

theorem parseLevel_isSome (s : String) :
    ((parseLevel s).2).isSome = !(recognizedUpper (toUpperGo s)) := by
  unfold parseLevel recognizedUpper
  simp only []
  split_ifs with h1 h2 h3 h4 h5
  · simp_all
  · simp_all
  · rcases h3 with h | h <;> simp_all
  · simp_all
  · simp_all
  · simp_all

/-! ## Claims -/

/-- Claim C1 (amended): the `addFields` dispatch of the default backend is
total over the value-kind taxonomy — every defined kind produces exactly one
rendered entry, and a value of any unrecognized concrete type still produces
output through the generic opaque (`Interface`) fallback — with one exception
forced by the code: a nested field collection / field sequence value that is
empty (`[]Field` of length 0) is silently dropped (no entry is appended, and
no error occurs). -/
theorem claim1_addFields_total_dispatch :
    (∀ f : Field, (renderField f).length =
      (match f.Value with
       | .vFields [] => 0
       | _ => 1)) ∧
    (∀ k t : String,
      renderField (.mk k (.vOther t)) = [⟨k, .rInterface t⟩]) := by
  constructor
  · intro f
    cases f with
    | mk k v =>
      cases v
      case vFields fs =>
        cases fs <;> simp [renderField, addField, Field.Value, Field.Key]
      all_goals simp [renderField, addField, Field.Value, Field.Key]
  · intro k t
    rfl

/-- Claim C1, counterexample to the claim as stated: the field
`Dict "k" []` holds a value of a defined kind (a nested field collection),
yet `addFields` drops it entirely — the dispatch appends nothing for it,
contradicting "produces a non-error rendering of that field ... rather than
dropping the field". -/
theorem claim1_counterexample :
    addFields [] [Dict "k" []] = [] := by
  decide

/-- Claim C7 (amended): for every logging call on the default backend the
supplied fields are dispatched onto the event in order after the built-in
entries, and every explicitly supplied Field appears under its own stored
`Key` — except that an error-valued field (such as one built with `NamedErr`)
is rendered under zerolog's fixed key "error" regardless of its stored key,
and a nested field collection / field sequence appears under its own key only
when non-empty (an empty one is dropped). -/
theorem claim7_fields_under_own_key :
    (∀ (event : List Entry) (fields : List Field),
      addFields event fields = event ++ renderFields fields) ∧
    (∀ f : Field, (renderField f).map Entry.key =
      (match f.Value with
       | .vErr _ => ["error"]
       | .vFields [] => []
       | _ => [f.Key])) := by
  constructor
  · exact addFields_eq_append
  · intro f
    cases f with
    | mk k v =>
      cases v
      case vFields fs =>
        cases fs <;> simp [renderField, addField, Field.Value, Field.Key]
      all_goals simp [renderField, addField, Field.Value, Field.Key]

/-- Claim C7, counterexample to the claim as stated: the field
`NamedErr "k" "boom"` (an error value under the caller-chosen key "k") is
rendered by `addFields` under the fixed key "error", not under its own key
"k" — the dispatch calls `event.Err(v)` which discards `field.Key`. -/
theorem claim7_counterexample :
    hasKey "k" (addFields [] [NamedErr "k" "boom"]) = false ∧
    hasKey "error" (addFields [] [NamedErr "k" "boom"]) = true := by
  decide

/-- Claim C2: `GetOrCreateTraceID` returns the registered provider's id
verbatim whenever the provider yields a non-empty string for the context;
otherwise (no provider, or the provider yields the empty string) it returns a
freshly generated 32-character string over the lowercase hex alphabet
`[0-9a-f]`; in all cases the result is never the empty string.  The
hypotheses state that `uuid.NewRandom` draws exactly 16 bytes. -/
theorem claim2_getOrCreateTraceID (provider : Option (Nat → String))
    (ctx : Nat) (entropy : List Nat)
    (hlen : entropy.length = 16) (hb : ∀ b ∈ entropy, b < 256) :
    (∀ p, provider = some p → p ctx ≠ "" →
      GetOrCreateTraceID provider ctx entropy = p ctx) ∧
    ((provider = none ∨ ∃ p, provider = some p ∧ p ctx = "") →
      (GetOrCreateTraceID provider ctx entropy).length = 32 ∧
      ∀ c ∈ (GetOrCreateTraceID provider ctx entropy).data,
        isLowerHex c = true) ∧
    GetOrCreateTraceID provider ctx entropy ≠ "" := by
  have hgenlen := uuidNew_hex_length entropy hlen
  have hgenchars := uuidNew_hex_chars entropy hb
  have hgenne : hexEncodeToString (uuidNew entropy) ≠ "" := by
    intro he
    rw [he] at hgenlen
    simp [String.length] at hgenlen
  cases provider with
  | none =>
    refine ⟨?_, ?_, ?_⟩
    · intro p hp
      cases hp
    · intro _
      exact ⟨hgenlen, hgenchars⟩
    · exact hgenne
  | some p =>
    by_cases hp : p ctx = ""
    · have hval : GetOrCreateTraceID (some p) ctx entropy =
          hexEncodeToString (uuidNew entropy) := by
        simp [GetOrCreateTraceID, hp]
      refine ⟨?_, ?_, ?_⟩
      · intro q hq hne
        cases hq
        exact absurd hp hne
      · intro _
        rw [hval]
        exact ⟨hgenlen, hgenchars⟩
      · rw [hval]
        exact hgenne
    · have hval : GetOrCreateTraceID (some p) ctx entropy = p ctx := by
        simp [GetOrCreateTraceID, hp]
      refine ⟨?_, ?_, ?_⟩
      · intro q hq _
        cases hq
        exact hval
      · intro hcontra
        rcases hcontra with h | ⟨q, hq, hq'⟩
        · cases h
        · cases hq
          exact absurd hq' hp
      · rw [hval]
        exact hp

/-- Claim C2, witness: with no provider registered and 16 zero bytes of
entropy, the hypotheses hold and the resolved id is non-empty. -/
theorem claim2_witness :
    (List.replicate 16 (0 : Nat)).length = 16 ∧
    GetOrCreateTraceID none 0 (List.replicate 16 0) ≠ "" :=
  ⟨by decide,
    (claim2_getOrCreateTraceID none 0 (List.replicate 16 0)
      (by decide) (by decide)).2.2⟩

/-- Claim C5: after `SetLogger L` the very next `GetLogger` returns exactly
`L`, regardless of any sequence of logging calls in between (logging entry
points never write the slot), and the registration slot is last-writer-wins:
two consecutive `SetLogger` calls leave the second value. -/
theorem claim5_setLogger_getLogger (s : GlobalState) (L L1 L2 : LoggerImpl)
    (ops : List RegOp) (h : ops.all isLogCall = true) :
    GetLogger (applyOps (SetLogger s L) ops) = some L ∧
    GetLogger (SetLogger (SetLogger s L1) L2) = some L2 := by
  constructor
  · rw [applyOps_logCalls_id ops (SetLogger s L) h]
    rfl
  · rfl

/-- Claim C5, witness: registering `custom 1`, logging through every entry
point kind, then reading the slot yields `custom 1`; re-registering wins. -/
theorem claim5_witness :
    ([RegOp.logCall .debug, RegOp.logCall .info, RegOp.logCall .error,
      RegOp.logCall .errorWithCode, RegOp.logCall .infoWithRequest,
      RegOp.logCall .errorWithRequest, RegOp.logCall .warn].all isLogCall
        = true) ∧
    GetLogger (applyOps (SetLogger initialState (.custom 1))
      [RegOp.logCall .debug, RegOp.logCall .info, RegOp.logCall .error,
       RegOp.logCall .errorWithCode, RegOp.logCall .infoWithRequest,
       RegOp.logCall .errorWithRequest, RegOp.logCall .warn])
        = some (.custom 1) ∧
    GetLogger (SetLogger (SetLogger initialState (.custom 2)) (.custom 3))
        = some (.custom 3) :=
  ⟨by decide,
    ⟨(claim5_setLogger_getLogger initialState (.custom 1) (.custom 2)
        (.custom 3) [RegOp.logCall .debug, RegOp.logCall .info,
        RegOp.logCall .error, RegOp.logCall .errorWithCode,
        RegOp.logCall .infoWithRequest, RegOp.logCall .errorWithRequest,
        RegOp.logCall .warn] (by decide)).1,
      (claim5_setLogger_getLogger initialState (.custom 1) (.custom 2)
        (.custom 3) [] (by decide)).2⟩⟩

/-- Claim C3: for every pair of configurations, calling
`InitLoggerWithConfig` first with `c1` and then with `c2` leaves the
configuration derived from the first call active: the second call returns
success without touching the state at all (so no partial or mixed
configuration is ever observable), while the first call saved `c1`'s service
and environment names and applied `c1`'s severity exactly when it parsed. -/
theorem claim3_init_idempotent (c1 c2 : LogConfig) (h1 h2 : Option String) :
    InitLoggerWithConfig (InitLoggerWithConfig initialState c1 h1).1 c2 h2
      = ((InitLoggerWithConfig initialState c1 h1).1, none) ∧
    (InitLoggerWithConfig initialState c1 h1).1.serviceName
      = c1.ServiceName ∧
    (InitLoggerWithConfig initialState c1 h1).1.envName = c1.Env ∧
    (InitLoggerWithConfig initialState c1 h1).1.globalLevel
      = (if ((parseLevel c1.LogLevel).2).isSome then none
         else some (parseLevel c1.LogLevel).1) := by
  rcases hp : parseLevel c1.LogLevel with ⟨lvl, e⟩
  cases e <;> simp [InitLoggerWithConfig, initialState, hp]

/-- Claim C4: the first invocation of `InitLoggerWithConfig` fails (returns a
non-nil error) exactly when the configured severity string is not one of the
recognized level names compared case-insensitively (the code uppercases the
input and accepts DEBUG, INFO, WARN, WARNING, ERROR, FATAL); on failure no
fallback severity is applied, and for every recognized name the call does not
fail. -/
theorem claim4_invalid_level_fails (config : LogConfig)
    (host : Option String) :
    ((InitLoggerWithConfig initialState config host).2).isSome
      = !(recognizedUpper (toUpperGo config.LogLevel)) ∧
    (InitLoggerWithConfig initialState config host).1.globalLevel
      = (if recognizedUpper (toUpperGo config.LogLevel)
         then some (parseLevel config.LogLevel).1 else none) := by
  have hchar := parseLevel_isSome config.LogLevel
  rcases hp : parseLevel config.LogLevel with ⟨lvl, e⟩
  rw [hp] at hchar
  cases e with
  | none =>
    cases hr : recognizedUpper (toUpperGo config.LogLevel) with
    | true => simp [InitLoggerWithConfig, initialState, hp, hr]
    | false =>
      rw [hr] at hchar
      simp at hchar
  | some msg =>
    cases hr : recognizedUpper (toUpperGo config.LogLevel) with
    | true =>
      rw [hr] at hchar
      simp at hchar
    | false => simp [InitLoggerWithConfig, initialState, hp, hr]

/-- Claim C10: if the first `InitLoggerWithConfig` call fails on an
unrecognized severity, it returns a non-nil error while installing neither a
severity, a configured global logger, nor a default backend — yet it consumes
the `sync.Once` guard, so every subsequent call, even with a valid
configuration, returns nil and changes nothing. -/
theorem claim10_failed_init_consumes_guard (c1 c2 : LogConfig)
    (h1 h2 : Option String)
    (hbad : recognizedUpper (toUpperGo c1.LogLevel) = false) :
    ((InitLoggerWithConfig initialState c1 h1).2).isSome = true ∧
    (InitLoggerWithConfig initialState c1 h1).1.globalLevel = none ∧
    (InitLoggerWithConfig initialState c1 h1).1.globalLogger = none ∧
    (InitLoggerWithConfig initialState c1 h1).1.loggerImpl = none ∧
    InitLoggerWithConfig (InitLoggerWithConfig initialState c1 h1).1 c2 h2
      = ((InitLoggerWithConfig initialState c1 h1).1, none) := by
  have hchar := parseLevel_isSome c1.LogLevel
  rw [hbad] at hchar
  rcases hp : parseLevel c1.LogLevel with ⟨lvl, e⟩
  rw [hp] at hchar
  cases e with
  | none => simp at hchar
  | some msg => simp [InitLoggerWithConfig, initialState, hp]

/-- Claim C10, witness: severity "TRACE" is not recognized; the first call
from the zero state then returns a non-nil error. -/
theorem claim10_witness :
    recognizedUpper (toUpperGo "TRACE") = false ∧
    ((InitLoggerWithConfig initialState
        { DefaultConfig "svc" with LogLevel := "TRACE" }
        (some "host")).2).isSome = true :=
  ⟨by decide,
    (claim10_failed_init_consumes_guard
      { DefaultConfig "svc" with LogLevel := "TRACE" }
      (DefaultConfig "svc") (some "host") (some "host") (by decide)).1⟩

/-- Claim C6: every `Fatal` invocation on the default backend first hands the
fatal record to the backend and then terminates the process with exit status
1 (non-zero) — its observable trace is exactly the emission followed by the
exit — while Debug, Info, Warn, Error, ErrorWithCode, InfoWithRequest and
ErrorWithRequest never produce a termination action. -/
theorem claim6_fatal_terminates (caller : String)
    (tp : Option (Nat → String)) (ctx : Nat) (entropy : List Nat)
    (module message errorCode requestID : String) (err : Option String)
    (costMs : Int) (fields : List Field) :
    (∃ ev, NewZerologLogger.Fatal caller tp ctx entropy module message err
        fields = [.emit .fatal ev, .exit 1]) ∧
    containsExit (NewZerologLogger.Debug caller tp ctx entropy module message
      fields) = false ∧
    containsExit (NewZerologLogger.Info caller tp ctx entropy module message
      fields) = false ∧
    containsExit (NewZerologLogger.Warn caller tp ctx entropy module message
      fields) = false ∧
    containsExit (NewZerologLogger.Error caller tp ctx entropy module message
      err fields) = false ∧
    containsExit (NewZerologLogger.ErrorWithCode caller tp ctx entropy module
      message errorCode err fields) = false ∧
    containsExit (NewZerologLogger.InfoWithRequest caller tp ctx entropy
      module message requestID costMs fields) = false ∧
    containsExit (NewZerologLogger.ErrorWithRequest caller tp ctx entropy
      module message requestID err costMs fields) = false := by
  refine ⟨⟨_, rfl⟩, rfl, rfl, rfl, rfl, rfl, rfl, rfl⟩

/-- Claim C8: on the default backend, `InfoWithRequest` and
`ErrorWithRequest` attach `cost_ms` exactly when `costMs > 0` and
`request_id` exactly when `requestID` is non-empty (beyond any key the caller
supplies through an explicit field); in particular `InfoWithRequest` with
`costMs = 0` and `requestID = "req-1"` emits `request_id` and no
`cost_ms`. -/
theorem claim8_request_fields (caller : String)
    (tp : Option (Nat → String)) (ctx : Nat) (entropy : List Nat)
    (module message requestID : String) (err : Option String)
    (costMs : Int) (fields : List Field) :
    hasKey "cost_ms" (emittedEntries (NewZerologLogger.InfoWithRequest
        caller tp ctx entropy module message requestID costMs fields))
      = (decide (costMs > 0) || hasKey "cost_ms" (renderFields fields)) ∧
    hasKey "request_id" (emittedEntries (NewZerologLogger.InfoWithRequest
        caller tp ctx entropy module message requestID costMs fields))
      = ((requestID != "") || hasKey "request_id" (renderFields fields)) ∧
    hasKey "cost_ms" (emittedEntries (NewZerologLogger.ErrorWithRequest
        caller tp ctx entropy module message requestID err costMs fields))
      = (decide (costMs > 0) || hasKey "cost_ms" (renderFields fields)) ∧
    hasKey "request_id" (emittedEntries (NewZerologLogger.ErrorWithRequest
        caller tp ctx entropy module message requestID err costMs fields))
      = ((requestID != "") || hasKey "request_id" (renderFields fields)) ∧
    hasKey "request_id" (emittedEntries (NewZerologLogger.InfoWithRequest
        "c" none 0 [] "api" "done" "req-1" 0 [])) = true ∧
    hasKey "cost_ms" (emittedEntries (NewZerologLogger.InfoWithRequest
        "c" none 0 [] "api" "done" "req-1" 0 [])) = false := by
  refine ⟨?_, ?_, ?_, ?_, by decide, by decide⟩ <;>
    cases err <;>
      simp [ZerologLogger.InfoWithRequest, ZerologLogger.ErrorWithRequest,
        NewZerologLogger, emittedEntries, addFields_eq_append, hasKey,
        List.any_append] <;>
      split_ifs <;>
      simp_all [hasKey, decide_eq_true_eq]

end ZLLog
